import Mathlib

/-!
Shallow embedding of the library-management REST backend
(src/app/main.py and src/app/convert_to_json.py):

* the SQLite store is modelled as three lists of rows together with the
  AUTOINCREMENT sequence counters (DELETE does not reset the counter);
* LibraryCRUD static methods become pure functions on that state;
* FastAPI endpoint handlers become functions returning an explicit
  response value (HTTP success payload or an HTTPException status and
  detail) together with the updated state; handlers that contain a
  try/except around json.loads also return the list of log messages they
  emit, so that logging behaviour is part of the model;
* the stdlib primitives the handlers rely on (str.strip, json.loads) are
  modelled as executable Lean functions below.
-/

/-- Characters stripped by the Python str.strip() method with no
argument: the Unicode whitespace set used by CPython. -/
def isPySpace (c : Char) : Bool :=
  let n := c.toNat
  (9 ≤ n && n ≤ 13) || (28 ≤ n && n ≤ 31) || n = 32 || n = 0x85 || n = 0xa0 ||
  n = 0x1680 || (0x2000 ≤ n && n ≤ 0x200a) || n = 0x2028 || n = 0x2029 ||
  n = 0x202f || n = 0x205f || n = 0x3000

/-- Model of the Python expression line.strip(): remove leading and
trailing whitespace characters. -/
def pystrip (s : String) : String :=
  String.mk (((s.toList.dropWhile isPySpace).reverse.dropWhile isPySpace).reverse)

/-- Consume an expected literal character sequence, returning the rest of
the input when the sequence is present. -/
def stripLit : List Char → List Char → Option (List Char)
  | [], cs => some cs
  | _ :: _, [] => none
  | p :: ps, c :: cs => if c = p then stripLit ps cs else none

/-- Fuelled scanner behind pysplit: cut the input at every leftmost
occurrence of the (nonempty) separator.  The fuel, set to the input
length, never runs out because every step consumes a character. -/
def pysplitGo (sep : List Char) : Nat → List Char → List Char → List (List Char)
  | _, acc, [] => [acc.reverse]
  | 0, acc, rest => [acc.reverse ++ rest]
  | fuel + 1, acc, c :: cs =>
    match stripLit sep (c :: cs) with
    | some rest => acc.reverse :: pysplitGo sep fuel [] rest
    | none => pysplitGo sep fuel (c :: acc) cs

/-- Model of the Python expression s.split(sep) for a nonempty
separator, as used with the two-character separator in the
converters. -/
def pysplit (s : String) (sep : String) : List String :=
  (pysplitGo sep.toList s.toList.length [] s.toList).map String.mk

/-- JSON values as produced by the Python json.loads used on the
borrowed_books column.  Number and string contents are kept as their
source lexemes: which inputs parse is what the embedded code depends on,
not the decoded numeric value. -/
inductive Json where
  | null : Json
  | bool : Bool → Json
  | num : String → Json
  | str : String → Json
  | arr : List Json → Json
  | obj : List (String × Json) → Json

/-- Whitespace accepted between JSON tokens by json.loads (space, tab,
newline, carriage return). -/
def jsonWsChar (c : Char) : Bool :=
  c = ' ' || c = '\t' || c = '\n' || c = '\r'

/-- Drop leading JSON whitespace. -/
def skipWs : List Char → List Char
  | [] => []
  | c :: cs => if jsonWsChar c then skipWs cs else c :: cs

/-- Hexadecimal digit test for \uXXXX escapes. -/
def isHexDigit (c : Char) : Bool :=
  c.isDigit || ('a' ≤ c && c ≤ 'f') || ('A' ≤ c && c ≤ 'F')

/-- Scan the body of a JSON string after the opening quote, validating
escape sequences and rejecting raw control characters, as the strict
CPython scanner does.  The scanned contents are returned raw (escapes
validated but not decoded). -/
def scanStringBody (acc : List Char) : List Char → Option (String × List Char)
  | [] => none
  | c :: cs =>
    if c = '"' then some (String.mk acc.reverse, cs)
    else if c = '\\' then
      match cs with
      | [] => none
      | e :: cs2 =>
        if e = '"' || e = '\\' || e = '/' || e = 'b' || e = 'f' ||
           e = 'n' || e = 'r' || e = 't' then
          scanStringBody (e :: c :: acc) cs2
        else if e = 'u' then
          match cs2 with
          | h1 :: h2 :: h3 :: h4 :: cs3 =>
            if isHexDigit h1 && isHexDigit h2 && isHexDigit h3 && isHexDigit h4 then
              scanStringBody (h4 :: h3 :: h2 :: h1 :: e :: c :: acc) cs3
            else none
          | _ => none
        else none
    else if c.toNat < 32 then none
    else scanStringBody (c :: acc) cs
termination_by cs => cs.length
decreasing_by all_goals simp_arith

/-- Scan the integer part of a JSON number: 0, or a nonzero digit
followed by digits. -/
def scanIntPart : List Char → Option (List Char × List Char)
  | [] => none
  | c :: cs =>
    if c = '0' then some ([c], cs)
    else if '1' ≤ c && c ≤ '9' then
      some (c :: cs.takeWhile Char.isDigit, cs.dropWhile Char.isDigit)
    else none

/-- Scan an optional fraction part (a dot followed by at least one
digit); when the grammar does not match, nothing is consumed, mirroring
the regular expression used by the CPython scanner. -/
def scanFrac : List Char → List Char × List Char
  | '.' :: d :: cs =>
    if d.isDigit then
      ('.' :: d :: cs.takeWhile Char.isDigit, cs.dropWhile Char.isDigit)
    else ([], '.' :: d :: cs)
  | cs => ([], cs)

/-- Scan an optional exponent part ([eE][+-]?digits); all-or-nothing, as
in the CPython number regular expression. -/
def scanExp : List Char → List Char × List Char
  | e :: s :: d :: cs =>
    if (e = 'e' || e = 'E') && (s = '+' || s = '-') && d.isDigit then
      (e :: s :: d :: cs.takeWhile Char.isDigit, cs.dropWhile Char.isDigit)
    else if (e = 'e' || e = 'E') && s.isDigit then
      (e :: s :: (d :: cs).takeWhile Char.isDigit, (d :: cs).dropWhile Char.isDigit)
    else ([], e :: s :: d :: cs)
  | e :: s :: cs =>
    if (e = 'e' || e = 'E') && s.isDigit then
      (e :: s :: cs.takeWhile Char.isDigit, cs.dropWhile Char.isDigit)
    else ([], e :: s :: cs)
  | cs => ([], cs)

/-- Scan a JSON number lexeme (sign, integer part, optional fraction and
exponent). -/
def scanNumber (cs : List Char) : Option (String × List Char) :=
  let (sign, cs1) := match cs with
    | '-' :: rest => (['-'], rest)
    | _ => (([] : List Char), cs)
  match scanIntPart cs1 with
  | none => none
  | some (ip, cs2) =>
    let (fp, cs3) := scanFrac cs2
    let (ep, cs4) := scanExp cs3
    some (String.mk (sign ++ ip ++ fp ++ ep), cs4)

mutual

/-- Parse one JSON value, fuelled; mirrors the CPython scanner order:
string, object, array, null, true, false, number, then the non-standard
constants NaN, Infinity and -Infinity accepted by json.loads. -/
def parseValue : Nat → List Char → Option (Json × List Char)
  | 0, _ => none
  | fuel + 1, cs =>
    match skipWs cs with
    | [] => none
    | c :: cs1 =>
      if c = '"' then
        match scanStringBody [] cs1 with
        | some (s, rest) => some (.str s, rest)
        | none => none
      else if c = '{' then
        match skipWs cs1 with
        | '}' :: rest => some (.obj [], rest)
        | cs2 =>
          match parseFields fuel cs2 with
          | some (kvs, rest) => some (.obj kvs, rest)
          | none => none
      else if c = '[' then
        match skipWs cs1 with
        | ']' :: rest => some (.arr [], rest)
        | cs2 =>
          match parseElems fuel cs2 with
          | some (vs, rest) => some (.arr vs, rest)
          | none => none
      else
        let cs0 := c :: cs1
        match stripLit ['n','u','l','l'] cs0 with
        | some rest => some (.null, rest)
        | none =>
        match stripLit ['t','r','u','e'] cs0 with
        | some rest => some (.bool true, rest)
        | none =>
        match stripLit ['f','a','l','s','e'] cs0 with
        | some rest => some (.bool false, rest)
        | none =>
        match scanNumber cs0 with
        | some (n, rest) => some (.num n, rest)
        | none =>
        match stripLit ['N','a','N'] cs0 with
        | some rest => some (.num "NaN", rest)
        | none =>
        match stripLit ['I','n','f','i','n','i','t','y'] cs0 with
        | some rest => some (.num "Infinity", rest)
        | none =>
        match stripLit ['-','I','n','f','i','n','i','t','y'] cs0 with
        | some rest => some (.num "-Infinity", rest)
        | none => none

/-- Parse the comma-separated elements of a nonempty JSON array up to the
closing bracket. -/
def parseElems : Nat → List Char → Option (List Json × List Char)
  | 0, _ => none
  | fuel + 1, cs =>
    match parseValue fuel cs with
    | none => none
    | some (v, rest) =>
      match skipWs rest with
      | ',' :: rest2 =>
        match parseElems fuel (skipWs rest2) with
        | some (vs, rest3) => some (v :: vs, rest3)
        | none => none
      | ']' :: rest2 => some ([v], rest2)
      | _ => none

/-- Parse the key-value pairs of a nonempty JSON object up to the closing
brace. -/
def parseFields : Nat → List Char → Option (List (String × Json) × List Char)
  | 0, _ => none
  | fuel + 1, cs =>
    match cs with
    | '"' :: cs1 =>
      match scanStringBody [] cs1 with
      | none => none
      | some (k, rest) =>
        match skipWs rest with
        | ':' :: rest2 =>
          match parseValue fuel rest2 with
          | none => none
          | some (v, rest3) =>
            match skipWs rest3 with
            | ',' :: rest4 =>
              match parseFields fuel (skipWs rest4) with
              | some (kvs, rest5) => some ((k, v) :: kvs, rest5)
              | none => none
            | '}' :: rest4 => some ([(k, v)], rest4)
            | _ => none
        | _ => none
    | _ => none

end

/-- Model of Python json.loads on a string: parse one value and require
only trailing whitespace after it; any decoding error raised by
json.loads is the value none.  The fuel length + 1 is sufficient because
every recursive level consumes at least one input character. -/
def Json.parse (s : String) : Option Json :=
  match parseValue (s.length + 1) s.toList with
  | some (v, rest) => if skipWs rest = [] then some v else none
  | none => none

/-- Coercion of a decoded JSON value to a Python int as performed by
pydantic when validating a List[int] field: integer number lexemes are
accepted.  Only the empty list is ever exercised by the embedded
handlers, so finer coercion behaviour is irrelevant. -/
def Json.toInt : Json → Option Int
  | .num lex => lex.toInt?
  | _ => none

/-- Coercion of a decoded JSON value to a List[int] as performed by
pydantic when building ReaderDetails or ReaderResponse. -/
def Json.toIntList : Json → Option (List Int)
  | .arr vs => vs.mapM Json.toInt
  | _ => none

/-- A row of the SQLite books table (book_id INTEGER PRIMARY KEY
AUTOINCREMENT, title TEXT NOT NULL, author TEXT NOT NULL, genre TEXT,
stock INTEGER). -/
structure BookRow where
  book_id : Nat
  title : String
  author : String
  genre : Option String
  stock : Option Int
deriving Repr, DecidableEq

/-- A row of the SQLite staff table (staff_id INTEGER PRIMARY KEY
AUTOINCREMENT, name TEXT NOT NULL, role TEXT NOT NULL, contact TEXT). -/
structure StaffRow where
  staff_id : Nat
  name : String
  role : String
  contact : Option String
deriving Repr, DecidableEq

/-- A row of the SQLite readers table (reader_id INTEGER PRIMARY KEY
AUTOINCREMENT, name TEXT NOT NULL, contact TEXT, borrowed_books TEXT):
the borrowed_books column holds a JSON-encoded string. -/
structure ReaderRow where
  reader_id : Nat
  name : String
  contact : Option String
  borrowed_books : String
deriving Repr, DecidableEq

/-- State of the SQLite database managed by DatabaseManager: the three
tables in insertion order, each with its AUTOINCREMENT sequence counter
(the next assigned id is the counter plus one; DELETE FROM does not
reset the counter for an AUTOINCREMENT table). -/
structure LibraryDB where
  books : List BookRow
  books_seq : Nat
  staff : List StaffRow
  staff_seq : Nat
  readers : List ReaderRow
  readers_seq : Nat
deriving Repr, DecidableEq

/-- Model of DatabaseManager.clear_database: DELETE FROM all three
tables, then log the message the method emits.  The AUTOINCREMENT
counters survive, as sqlite_sequence is not touched. -/
def clear_database (db : LibraryDB) : LibraryDB × List String :=
  ({ db with books := [], staff := [], readers := [] },
   ["Database cleared for testing"])

/-- Request model BookCreate (= BookBase): title and author required,
genre and stock optional. -/
structure BookCreate where
  title : String
  author : String
  genre : Option String
  stock : Option Int
deriving Repr, DecidableEq

/-- Request model BookUpdate: every field optional; a missing field means
the column is not mentioned in the UPDATE statement. -/
structure BookUpdate where
  title : Option String
  author : Option String
  genre : Option String
  stock : Option Int
deriving Repr, DecidableEq

/-- Request model StaffCreate (= StaffBase). -/
structure StaffCreate where
  name : String
  role : String
  contact : Option String
deriving Repr, DecidableEq

/-- Request model StaffUpdate. -/
structure StaffUpdate where
  name : Option String
  role : Option String
  contact : Option String
deriving Repr, DecidableEq

/-- Request model ReaderCreate (= ReaderBase). -/
structure ReaderCreate where
  name : String
  contact : Option String
deriving Repr, DecidableEq

/-- Request model ReaderUpdate. -/
structure ReaderUpdate where
  name : Option String
  contact : Option String
deriving Repr, DecidableEq

namespace LibraryCRUD

/-- LibraryCRUD.get_all_books: SELECT * FROM books. -/
def get_all_books (db : LibraryDB) : List BookRow :=
  db.books

/-- LibraryCRUD.get_book_by_id: SELECT * FROM books WHERE book_id = ?,
returning the first result or None. -/
def get_book_by_id (book_id : Nat) (db : LibraryDB) : Option BookRow :=
  db.books.find? (fun r => r.book_id == book_id)

/-- LibraryCRUD.create_book: INSERT INTO books (title, author, genre,
stock) VALUES (?, ?, ?, ?); returns the lastrowid assigned by
AUTOINCREMENT together with the new state. -/
def create_book (b : BookCreate) (db : LibraryDB) : Nat × LibraryDB :=
  let new_id := db.books_seq + 1
  (new_id,
   { db with
       books := db.books ++
         [{ book_id := new_id, title := b.title, author := b.author,
            genre := b.genre, stock := b.stock }],
       books_seq := new_id })

/-- Column setters collected by the dynamic query builder of
LibraryCRUD.update_book, in source order (title, author, genre,
stock). -/
def bookUpdates (b : BookUpdate) : List (BookRow → BookRow) :=
  (match b.title with
   | some t => [fun r => { r with title := t }]
   | none => []) ++
  (match b.author with
   | some a => [fun r => { r with author := a }]
   | none => []) ++
  (match b.genre with
   | some g => [fun r => { r with genre := some g }]
   | none => []) ++
  (match b.stock with
   | some s => [fun r => { r with stock := some s }]
   | none => [])

/-- LibraryCRUD.update_book: build the SET clauses dynamically; with no
clauses return True without touching the database, otherwise run UPDATE
books SET ... WHERE book_id = ? and return True. -/
def update_book (book_id : Nat) (b : BookUpdate) (db : LibraryDB) :
    Bool × LibraryDB :=
  let updates := bookUpdates b
  if updates.isEmpty then (true, db)
  else
    (true,
     { db with
         books := db.books.map (fun r =>
           if r.book_id == book_id then updates.foldl (fun r f => f r) r
           else r) })

/-- LibraryCRUD.delete_book: DELETE FROM books WHERE book_id = ?; always
returns True. -/
def delete_book (book_id : Nat) (db : LibraryDB) : Bool × LibraryDB :=
  (true, { db with books := db.books.filter (fun r => r.book_id != book_id) })

/-- LibraryCRUD.get_all_staff: SELECT * FROM staff. -/
def get_all_staff (db : LibraryDB) : List StaffRow :=
  db.staff

/-- LibraryCRUD.get_staff_by_id: SELECT * FROM staff WHERE staff_id = ?,
first result or None. -/
def get_staff_by_id (staff_id : Nat) (db : LibraryDB) : Option StaffRow :=
  db.staff.find? (fun r => r.staff_id == staff_id)

/-- LibraryCRUD.create_staff: INSERT INTO staff (name, role, contact)
VALUES (?, ?, ?). -/
def create_staff (s : StaffCreate) (db : LibraryDB) : Nat × LibraryDB :=
  let new_id := db.staff_seq + 1
  (new_id,
   { db with
       staff := db.staff ++
         [{ staff_id := new_id, name := s.name, role := s.role,
            contact := s.contact }],
       staff_seq := new_id })

/-- Column setters collected by LibraryCRUD.update_staff, in source order
(name, role, contact). -/
def staffUpdates (s : StaffUpdate) : List (StaffRow → StaffRow) :=
  (match s.name with
   | some n => [fun r => { r with name := n }]
   | none => []) ++
  (match s.role with
   | some ro => [fun r => { r with role := ro }]
   | none => []) ++
  (match s.contact with
   | some c => [fun r => { r with contact := some c }]
   | none => [])

/-- LibraryCRUD.update_staff: dynamic UPDATE staff SET ... WHERE
staff_id = ?; True with no database call when no field is given. -/
def update_staff (staff_id : Nat) (s : StaffUpdate) (db : LibraryDB) :
    Bool × LibraryDB :=
  let updates := staffUpdates s
  if updates.isEmpty then (true, db)
  else
    (true,
     { db with
         staff := db.staff.map (fun r =>
           if r.staff_id == staff_id then updates.foldl (fun r f => f r) r
           else r) })

/-- LibraryCRUD.delete_staff: DELETE FROM staff WHERE staff_id = ?. -/
def delete_staff (staff_id : Nat) (db : LibraryDB) : Bool × LibraryDB :=
  (true, { db with staff := db.staff.filter (fun r => r.staff_id != staff_id) })

/-- LibraryCRUD.get_all_readers: SELECT * FROM readers. -/
def get_all_readers (db : LibraryDB) : List ReaderRow :=
  db.readers

/-- LibraryCRUD.get_reader_by_id: SELECT * FROM readers WHERE
reader_id = ?, first result or None. -/
def get_reader_by_id (reader_id : Nat) (db : LibraryDB) : Option ReaderRow :=
  db.readers.find? (fun r => r.reader_id == reader_id)

/-- LibraryCRUD.create_reader: INSERT INTO readers (name, contact,
borrowed_books) VALUES (?, ?, ?) with the literal string [] as the
borrowed_books value, whatever the request contained. -/
def create_reader (rd : ReaderCreate) (db : LibraryDB) : Nat × LibraryDB :=
  let new_id := db.readers_seq + 1
  (new_id,
   { db with
       readers := db.readers ++
         [{ reader_id := new_id, name := rd.name, contact := rd.contact,
            borrowed_books := "[]" }],
       readers_seq := new_id })

/-- Column setters collected by LibraryCRUD.update_reader, in source
order (name, contact); borrowed_books is never updatable. -/
def readerUpdates (rd : ReaderUpdate) : List (ReaderRow → ReaderRow) :=
  (match rd.name with
   | some n => [fun r => { r with name := n }]
   | none => []) ++
  (match rd.contact with
   | some c => [fun r => { r with contact := some c }]
   | none => [])

/-- LibraryCRUD.update_reader: dynamic UPDATE readers SET ... WHERE
reader_id = ?; True with no database call when no field is given. -/
def update_reader (reader_id : Nat) (rd : ReaderUpdate) (db : LibraryDB) :
    Bool × LibraryDB :=
  let updates := readerUpdates rd
  if updates.isEmpty then (true, db)
  else
    (true,
     { db with
         readers := db.readers.map (fun r =>
           if r.reader_id == reader_id then updates.foldl (fun r f => f r) r
           else r) })

/-- LibraryCRUD.delete_reader: DELETE FROM readers WHERE reader_id = ?. -/
def delete_reader (reader_id : Nat) (db : LibraryDB) : Bool × LibraryDB :=
  (true,
   { db with readers := db.readers.filter (fun r => r.reader_id != reader_id) })

end LibraryCRUD

/-- Outcome of an endpoint handler: the successful response payload, or
an HTTPException with its status code and detail message. -/
inductive Resp (α : Type) where
  | ok : α → Resp α
  | err : Nat → String → Resp α
deriving Repr, DecidableEq

/-- Status code of the HTTPException raised by a handler, or none when
the handler succeeded. -/
def Resp.errorCode {α : Type} : Resp α → Option Nat
  | .ok _ => none
  | .err code _ => some code

/-- Handler outcome together with the log messages the handler body
emits; the embedded reader handlers contain no logging call, so their
log component is always built as the empty list. -/
structure LogResp (α : Type) where
  resp : Resp α
  log : List String

/-- Shape of the dict a reader GET handler returns: the row with the
borrowed_books column replaced by the value produced by the
try/except around json.loads. -/
structure ReaderOut where
  reader_id : Nat
  name : String
  contact : Option String
  borrowed_books : Json

/-- Body of the loop in the readers list handler and of the tail of the
reader GET handler: parse borrowed_books with json.loads, and on any
decoding error assign the empty list (the except branch does only this
assignment, no logging). -/
def decodeReaderRow (r : ReaderRow) : ReaderOut :=
  { reader_id := r.reader_id, name := r.name, contact := r.contact,
    borrowed_books :=
      match Json.parse r.borrowed_books with
      | some v => v
      | none => Json.arr [] }

/-- Nested details object of the advanced reader responses. -/
structure ReaderDetails where
  contact : Option String
  borrowed_books : List Int
deriving Repr, DecidableEq

/-- Request model ReaderAdvancedCreate: a name and a ReaderDetails
object, which may carry a borrowed_books list. -/
structure ReaderAdvancedCreate where
  name : String
  details : ReaderDetails
deriving Repr, DecidableEq

/-- Response model ReaderAdvancedResponse. -/
structure ReaderAdvancedResponse where
  reader_id : Nat
  name : String
  details : ReaderDetails
deriving Repr, DecidableEq

/-- Nested details object of the advanced book models. -/
structure BookDetails where
  genre : Option String
  stock : Option Int
deriving Repr, DecidableEq

/-- Result of running the two pydantic validators of BookAdvancedCreate
on the title field: reject an empty or whitespace-only value, strip an
accepted one. -/
def title_not_empty (v : String) : Except String String :=
  if pystrip v = "" then .error "Title cannot be empty" else .ok (pystrip v)

/-- Result of running the author validator of BookAdvancedCreate. -/
def author_not_empty (v : String) : Except String String :=
  if pystrip v = "" then .error "Author cannot be empty" else .ok (pystrip v)

/-- Validated BookAdvancedCreate model instance. -/
structure BookAdvancedCreate where
  title : String
  author : String
  details : BookDetails
deriving Repr, DecidableEq

/-- Well-typed payload offered to BookAdvancedCreate (title, author and
details fields present with their declared types); validation applies
the field validators in declaration order. -/
structure BookPayload where
  title : String
  author : String
  details : BookDetails
deriving Repr, DecidableEq

/-- Model of constructing BookAdvancedCreate(**json_data) on a
well-typed payload: the title and author validators run; the error
raised by the first failing validator becomes the ValidationError
text. -/
def mkBookAdvancedCreate (p : BookPayload) : Except String BookAdvancedCreate :=
  match title_not_empty p.title with
  | .error e => .error e
  | .ok t =>
    match author_not_empty p.author with
    | .error e => .error e
    | .ok a => .ok { title := t, author := a, details := p.details }

/-- validate_book_json from main.py: try to construct the model and
return the validated dump, or the exception text. -/
def validate_book_json (p : BookPayload) : Except String BookAdvancedCreate :=
  mkBookAdvancedCreate p

namespace Api

/-- GET /books handler. -/
def get_books (db : LibraryDB) : Resp (List BookRow) :=
  .ok (LibraryCRUD.get_all_books db)

/-- GET /books/{book_id} handler: 404 when the row is missing. -/
def get_book (book_id : Nat) (db : LibraryDB) : Resp BookRow :=
  match LibraryCRUD.get_book_by_id book_id db with
  | none => .err 404 ("Book with ID " ++ toString book_id ++ " not found")
  | some book => .ok book

/-- POST /books handler: create unconditionally (BookCreate has no
validators), re-fetch the new row and return it under a message. -/
def create_book (book_data : BookCreate) (db : LibraryDB) :
    Resp (String × Option BookRow) × LibraryDB :=
  let created := LibraryCRUD.create_book book_data db
  (.ok ("Book created successfully",
        LibraryCRUD.get_book_by_id created.1 created.2),
   created.2)

/-- PUT /books/{book_id} handler: 404 on a missing id before any write,
otherwise update and return the re-fetched row. -/
def update_book (book_id : Nat) (book_data : BookUpdate) (db : LibraryDB) :
    Resp (String × Option BookRow) × LibraryDB :=
  match LibraryCRUD.get_book_by_id book_id db with
  | none =>
    (.err 404 ("Book with ID " ++ toString book_id ++ " not found"), db)
  | some _ =>
    let updated := LibraryCRUD.update_book book_id book_data db
    (.ok ("Book updated successfully",
          LibraryCRUD.get_book_by_id book_id updated.2),
     updated.2)

/-- DELETE /books/{book_id} handler: 404 on a missing id before any
write, otherwise delete and return a message. -/
def delete_book (book_id : Nat) (db : LibraryDB) : Resp String × LibraryDB :=
  match LibraryCRUD.get_book_by_id book_id db with
  | none =>
    (.err 404 ("Book with ID " ++ toString book_id ++ " not found"), db)
  | some _ =>
    let deleted := LibraryCRUD.delete_book book_id db
    (.ok ("Book with ID " ++ toString book_id ++ " deleted successfully"),
     deleted.2)

/-- GET /staff/{staff_id} handler. -/
def get_staff_member (staff_id : Nat) (db : LibraryDB) : Resp StaffRow :=
  match LibraryCRUD.get_staff_by_id staff_id db with
  | none =>
    .err 404 ("Staff member with ID " ++ toString staff_id ++ " not found")
  | some st => .ok st

/-- POST /staff handler. -/
def create_staff (staff_data : StaffCreate) (db : LibraryDB) :
    Resp (String × Option StaffRow) × LibraryDB :=
  let created := LibraryCRUD.create_staff staff_data db
  (.ok ("Staff member created successfully",
        LibraryCRUD.get_staff_by_id created.1 created.2),
   created.2)

/-- PUT /staff/{staff_id} handler. -/
def update_staff (staff_id : Nat) (staff_data : StaffUpdate) (db : LibraryDB) :
    Resp (String × Option StaffRow) × LibraryDB :=
  match LibraryCRUD.get_staff_by_id staff_id db with
  | none =>
    (.err 404 ("Staff member with ID " ++ toString staff_id ++ " not found"),
     db)
  | some _ =>
    let updated := LibraryCRUD.update_staff staff_id staff_data db
    (.ok ("Staff member updated successfully",
          LibraryCRUD.get_staff_by_id staff_id updated.2),
     updated.2)

/-- DELETE /staff/{staff_id} handler. -/
def delete_staff (staff_id : Nat) (db : LibraryDB) : Resp String × LibraryDB :=
  match LibraryCRUD.get_staff_by_id staff_id db with
  | none =>
    (.err 404 ("Staff member with ID " ++ toString staff_id ++ " not found"),
     db)
  | some _ =>
    let deleted := LibraryCRUD.delete_staff staff_id db
    (.ok ("Staff member with ID " ++ toString staff_id ++
          " deleted successfully"),
     deleted.2)

/-- GET /readers handler: list all rows, parsing each borrowed_books
column inside a try/except that assigns the empty list on error and
logs nothing. -/
def get_readers (db : LibraryDB) : LogResp (List ReaderOut) :=
  { resp := .ok ((LibraryCRUD.get_all_readers db).map decodeReaderRow),
    log := [] }

/-- GET /readers/{reader_id} handler: 404 when missing, otherwise the
row with borrowed_books parsed under the same try/except. -/
def get_reader (reader_id : Nat) (db : LibraryDB) : LogResp ReaderOut :=
  match LibraryCRUD.get_reader_by_id reader_id db with
  | none =>
    { resp := .err 404 ("Reader with ID " ++ toString reader_id ++ " not found"),
      log := [] }
  | some r => { resp := .ok (decodeReaderRow r), log := [] }

/-- POST /readers handler: create, re-fetch, then parse the stored
borrowed_books column with a bare json.loads.  Unlike the GET handlers
this handler has no try/except, so a decoding failure raises and
surfaces as a 500 response; a None re-fetch would raise on the
attribute access and surface as 500 too. -/
def create_reader (reader_data : ReaderCreate) (db : LibraryDB) :
    Resp (String × Option ReaderOut) × LibraryDB :=
  let created := LibraryCRUD.create_reader reader_data db
  match LibraryCRUD.get_reader_by_id created.1 created.2 with
  | none => (.err 500 "Internal Server Error", created.2)
  | some r =>
    match Json.parse r.borrowed_books with
    | some v =>
      (.ok ("Reader created successfully",
            some { reader_id := r.reader_id, name := r.name,
                   contact := r.contact, borrowed_books := v }),
       created.2)
    | none => (.err 500 "Internal Server Error", created.2)

/-- PUT /readers/{reader_id} handler: 404 on a missing id before any
write; otherwise update, re-fetch, then parse the stored borrowed_books
column with a bare json.loads.  This handler has no try/except around
the parse, so a decoding failure raises and surfaces as a 500
response. -/
def update_reader (reader_id : Nat) (reader_data : ReaderUpdate)
    (db : LibraryDB) : Resp (String × Option ReaderOut) × LibraryDB :=
  match LibraryCRUD.get_reader_by_id reader_id db with
  | none =>
    (.err 404 ("Reader with ID " ++ toString reader_id ++ " not found"), db)
  | some _ =>
    let updated := LibraryCRUD.update_reader reader_id reader_data db
    match LibraryCRUD.get_reader_by_id reader_id updated.2 with
    | none => (.err 500 "Internal Server Error", updated.2)
    | some r =>
      match Json.parse r.borrowed_books with
      | some v =>
        (.ok ("Reader updated successfully",
              some { reader_id := r.reader_id, name := r.name,
                     contact := r.contact, borrowed_books := v }),
         updated.2)
      | none => (.err 500 "Internal Server Error", updated.2)

/-- DELETE /readers/{reader_id} handler. -/
def delete_reader (reader_id : Nat) (db : LibraryDB) :
    Resp String × LibraryDB :=
  match LibraryCRUD.get_reader_by_id reader_id db with
  | none =>
    (.err 404 ("Reader with ID " ++ toString reader_id ++ " not found"), db)
  | some _ =>
    let deleted := LibraryCRUD.delete_reader reader_id db
    (.ok ("Reader with ID " ++ toString reader_id ++ " deleted successfully"),
     deleted.2)

/-- GET /readers/advanced/{reader_id} handler: 404 when missing;
otherwise parse borrowed_books (empty list on decoding error, no log)
and build the nested response, whose pydantic validation of the
List[int] field runs at construction (its failure would surface as a
500 response outside the handler). -/
def get_reader_advanced (reader_id : Nat) (db : LibraryDB) :
    LogResp ReaderAdvancedResponse :=
  match LibraryCRUD.get_reader_by_id reader_id db with
  | none =>
    { resp := .err 404 ("Reader with ID " ++ toString reader_id ++ " not found"),
      log := [] }
  | some r =>
    let borrowed : Json :=
      match Json.parse r.borrowed_books with
      | some v => v
      | none => Json.arr []
    match borrowed.toIntList with
    | some bs =>
      { resp := .ok { reader_id := r.reader_id, name := r.name,
                      details := { contact := r.contact,
                                   borrowed_books := bs } },
        log := [] }
    | none => { resp := .err 500 "Internal Server Error", log := [] }

/-- POST /readers/advanced handler: convert to the basic ReaderCreate
(dropping details.borrowed_books), create, re-fetch and build the
nested response. -/
def create_reader_advanced (reader_data : ReaderAdvancedCreate)
    (db : LibraryDB) : LogResp ReaderAdvancedResponse × LibraryDB :=
  let basic : ReaderCreate :=
    { name := reader_data.name, contact := reader_data.details.contact }
  let created := LibraryCRUD.create_reader basic db
  match LibraryCRUD.get_reader_by_id created.1 created.2 with
  | none => ({ resp := .err 500 "Internal Server Error", log := [] }, created.2)
  | some r =>
    let borrowed : Json :=
      match Json.parse r.borrowed_books with
      | some v => v
      | none => Json.arr []
    match borrowed.toIntList with
    | some bs =>
      ({ resp := .ok { reader_id := r.reader_id, name := r.name,
                       details := { contact := r.contact,
                                    borrowed_books := bs } },
         log := [] },
       created.2)
    | none => ({ resp := .err 500 "Internal Server Error", log := [] },
               created.2)

/-- POST /validate/book handler: 200 with the validated data when the
model constructs, HTTPException 400 with the exception text otherwise;
the database is never touched. -/
def validate_book_json_endpoint (p : BookPayload) :
    Resp (String × BookAdvancedCreate) :=
  match validate_book_json p with
  | .ok b => .ok ("JSON payload is valid", b)
  | .error e => .err 400 ("Invalid JSON payload: " ++ e)

/-- POST /clear-db handler. -/
def clear_db (db : LibraryDB) : Resp String × LibraryDB × List String :=
  let cleared := clear_database db
  (.ok "Database cleared successfully", cleared.1, cleared.2)

end Api

/-- Record written to books.json by convert_books_to_json for one
accepted line of books.txt. -/
structure JsonBook where
  id : Nat
  title : String
  author : String
  isbn : String
  published_year : Option Int
  genre : String
  available : Bool
deriving Repr, DecidableEq

/-- Record written to readers.json by convert_readers_to_json. -/
structure JsonReader where
  id : Nat
  name : String
  membership_id : String
  email : String
  phone : String
  membership_type : String
  join_date : String
  books_borrowed : List Int
deriving Repr, DecidableEq

/-- Record written to staff.json by convert_staff_to_json. -/
structure JsonStaff where
  id : Nat
  name : String
  position : String
  email : String
  phone : String
  department : String
  salary : Int
  hire_date : String
  is_active : Bool
deriving Repr, DecidableEq

/-- Loop body of convert_books_to_json for the line numbered line_num
(enumerate starts at 1): skip a line that is empty after stripping, or
whose stripped text splits on the two-character separator into fewer
than two parts; otherwise emit a record whose id is the line number. -/
def bookOfLine (line_num : Nat) (line : String) : Option JsonBook :=
  let s := pystrip line
  if s = "" then none
  else
    let parts := pysplit s ", "
    if 2 ≤ parts.length then
      some { id := line_num, title := parts.getD 0 "", author := parts.getD 1 "",
             isbn := "", published_year := none, genre := "", available := true }
    else none

/-- Loop body of convert_readers_to_json. -/
def readerOfLine (line_num : Nat) (line : String) : Option JsonReader :=
  let s := pystrip line
  if s = "" then none
  else
    let parts := pysplit s ", "
    if 2 ≤ parts.length then
      some { id := line_num, name := parts.getD 0 "",
             membership_id := parts.getD 1 "", email := "", phone := "",
             membership_type := "Standard", join_date := "2024-01-01",
             books_borrowed := [] }
    else none

/-- Loop body of convert_staff_to_json. -/
def staffOfLine (line_num : Nat) (line : String) : Option JsonStaff :=
  let s := pystrip line
  if s = "" then none
  else
    let parts := pysplit s ", "
    if 2 ≤ parts.length then
      some { id := line_num, name := parts.getD 0 "",
             position := parts.getD 1 "", email := "", phone := "",
             department := "", salary := 0, hire_date := "2024-01-01",
             is_active := true }
    else none

/-- Enumerate-and-filter loop shared by the three converters: apply the
loop body to each line with its 1-based line number, keeping the emitted
records in order. -/
def convertGo {α : Type} (f : Nat → String → Option α) :
    Nat → List String → List α
  | _, [] => []
  | n, l :: ls =>
    match f n l with
    | some b => b :: convertGo f (n + 1) ls
    | none => convertGo f (n + 1) ls

/-- convert_books_to_json applied to the lines of books.txt: the list of
records written under the books key of books.json. -/
def convert_books_to_json (lines : List String) : List JsonBook :=
  convertGo bookOfLine 1 lines

/-- convert_readers_to_json applied to the lines of readers.txt. -/
def convert_readers_to_json (lines : List String) : List JsonReader :=
  convertGo readerOfLine 1 lines

/-- convert_staff_to_json applied to the lines of staff.txt. -/
def convert_staff_to_json (lines : List String) : List JsonStaff :=
  convertGo staffOfLine 1 lines

/-- Invariant maintained by the AUTOINCREMENT counter of the books
table: every stored id is at most the counter.  It holds for every
database state reachable from the empty one. -/
def booksWF (db : LibraryDB) : Prop :=
  ∀ r ∈ db.books, r.book_id ≤ db.books_seq

/-- AUTOINCREMENT invariant for the staff table. -/
def staffWF (db : LibraryDB) : Prop :=
  ∀ r ∈ db.staff, r.staff_id ≤ db.staff_seq

/-- AUTOINCREMENT invariant for the readers table. -/
def readersWF (db : LibraryDB) : Prop :=
  ∀ r ∈ db.readers, r.reader_id ≤ db.readers_seq

instance (db : LibraryDB) : Decidable (booksWF db) := by
  unfold booksWF; infer_instance

instance (db : LibraryDB) : Decidable (staffWF db) := by
  unfold staffWF; infer_instance

instance (db : LibraryDB) : Decidable (readersWF db) := by
  unfold readersWF; infer_instance

/-- Per-field effect of one UPDATE books statement on a matching row:
a field given as None keeps its previous value, a field given as
non-None takes the new value. -/
def applyBookUpdate (b : BookUpdate) (r : BookRow) : BookRow :=
  { r with
      title := b.title.getD r.title,
      author := b.author.getD r.author,
      genre := match b.genre with | some g => some g | none => r.genre,
      stock := match b.stock with | some s => some s | none => r.stock }

/-- Per-field effect of one UPDATE staff statement on a matching row. -/
def applyStaffUpdate (s : StaffUpdate) (r : StaffRow) : StaffRow :=
  { r with
      name := s.name.getD r.name,
      role := s.role.getD r.role,
      contact := match s.contact with | some c => some c | none => r.contact }

/-- Per-field effect of one UPDATE readers statement on a matching
row. -/
def applyReaderUpdate (rd : ReaderUpdate) (r : ReaderRow) : ReaderRow :=
  { r with
      name := rd.name.getD r.name,
      contact := match rd.contact with | some c => some c | none => r.contact }

/-- Freshly initialised database: three empty tables with their
AUTOINCREMENT counters at zero. -/
def db0 : LibraryDB :=
  { books := [], books_seq := 0, staff := [], staff_seq := 0,
    readers := [], readers_seq := 0 }

/-- Database state holding one reader whose stored borrowed_books column
is a string that is not valid JSON. -/
def dbCorrupt : LibraryDB :=
  { books := [], books_seq := 0, staff := [], staff_seq := 0,
    readers := [{ reader_id := 1, name := "Reader One", contact := none,
                  borrowed_books := "not json" }],
    readers_seq := 1 }

/-- Contents of a small books.txt whose second and third lines are blank
or malformed and are therefore skipped by the converter. -/
def sampleLines : List String :=
  ["Dune, Frank Herbert", "", "bad", "Emma, Jane Austen"]

/-- Record the converter emits for the fourth line of sampleLines. -/
def sampleBook : JsonBook :=
  { id := 4, title := "Emma", author := "Jane Austen", isbn := "",
    published_year := none, genre := "", available := true }

/-- A find? over a concatenation skips a left part on which the
predicate is everywhere false. -/
theorem lib_find?_append {α : Type} (p : α → Bool) (l₁ l₂ : List α)
    (h : ∀ x ∈ l₁, p x = false) : (l₁ ++ l₂).find? p = l₂.find? p := by
  induction l₁ with
  | nil => simp
  | cons a l ih =>
    have ha := h a (by simp)
    simp only [List.cons_append, List.find?_cons, ha]
    exact ih (fun x hx => h x (by simp [hx]))

/-- After filtering out every row whose key equals the requested id,
find? for that id returns nothing. -/
theorem lib_find?_filter_key {α : Type} (key : α → Nat) (id : Nat)
    (l : List α) :
    (l.filter (fun r => key r != id)).find? (fun r => key r == id) = none := by
  rw [List.find?_eq_none]
  intro x hx
  have hne := (List.mem_filter.mp hx).2
  simp only [bne_iff_ne, ne_eq] at hne
  simp [hne]

/-- Loop invariant of the converter loop: every emitted record carries
the 1-based number of the line it came from, that number is within the
file, and re-running the loop body on that very line reproduces the
record. -/
theorem lib_convertGo_mem {α : Type} (f : Nat → String → Option α)
    (idOf : α → Nat) (hf : ∀ n l b, f n l = some b → idOf b = n) :
    ∀ (ls : List String) (n : Nat) (b : α), b ∈ convertGo f n ls →
      n ≤ idOf b ∧ idOf b < n + ls.length ∧
        f (idOf b) (ls.getD (idOf b - n) "") = some b := by
  intro ls
  induction ls with
  | nil => intro n b h; simp [convertGo] at h
  | cons l ls ih =>
    intro n b h
    unfold convertGo at h
    rcases hl : f n l with _ | b0
    · rw [hl] at h
      obtain ⟨h1, h2, h3⟩ := ih (n + 1) b h
      refine ⟨by omega, by simp; omega, ?_⟩
      have hidx : idOf b - n = (idOf b - (n + 1)) + 1 := by omega
      rw [hidx, List.getD_cons_succ]
      exact h3
    · rw [hl] at h
      rcases List.mem_cons.mp h with rfl | hmem
      · have hid : idOf b = n := hf n l b hl
        refine ⟨le_of_eq hid.symm, by simp [hid], ?_⟩
        rw [hid, Nat.sub_self, List.getD_cons_zero]
        exact hl
      · obtain ⟨h1, h2, h3⟩ := ih (n + 1) b hmem
        refine ⟨by omega, by simp; omega, ?_⟩
        have hidx : idOf b - n = (idOf b - (n + 1)) + 1 := by omega
        rw [hidx, List.getD_cons_succ]
        exact h3

/-- Loop body of convert_books_to_json stamps the given line number as
the id. -/
theorem bookOfLine_id (n : Nat) (l : String) (b : JsonBook)
    (h : bookOfLine n l = some b) : b.id = n := by
  simp only [bookOfLine] at h
  split at h
  · exact absurd h (by simp)
  · split at h
    · cases h; rfl
    · exact absurd h (by simp)

/-- Loop body of convert_readers_to_json stamps the given line number as
the id. -/
theorem readerOfLine_id (n : Nat) (l : String) (b : JsonReader)
    (h : readerOfLine n l = some b) : b.id = n := by
  simp only [readerOfLine] at h
  split at h
  · exact absurd h (by simp)
  · split at h
    · cases h; rfl
    · exact absurd h (by simp)

/-- Loop body of convert_staff_to_json stamps the given line number as
the id. -/
theorem staffOfLine_id (n : Nat) (l : String) (b : JsonStaff)
    (h : staffOfLine n l = some b) : b.id = n := by
  simp only [staffOfLine] at h
  split at h
  · exact absurd h (by simp)
  · split at h
    · cases h; rfl
    · exact absurd h (by simp)

/-- Evaluation of the JSON decoder on the literal stored by
create_reader. -/
theorem json_parse_empty_list : Json.parse "[]" = some (Json.arr []) := by rfl

/-- Applying the collected book setters in source order equals the
per-field description. -/
theorem bookUpdates_foldl (b : BookUpdate) (r : BookRow) :
    (LibraryCRUD.bookUpdates b).foldl (fun r f => f r) r = applyBookUpdate b r := by
  rcases b with ⟨t, a, g, s⟩
  cases t <;> cases a <;> cases g <;> cases s <;> rfl

/-- Applying the collected staff setters in source order equals the
per-field description. -/
theorem staffUpdates_foldl (s : StaffUpdate) (r : StaffRow) :
    (LibraryCRUD.staffUpdates s).foldl (fun r f => f r) r = applyStaffUpdate s r := by
  rcases s with ⟨n, ro, c⟩
  cases n <;> cases ro <;> cases c <;> rfl

/-- Applying the collected reader setters in source order equals the
per-field description. -/
theorem readerUpdates_foldl (rd : ReaderUpdate) (r : ReaderRow) :
    (LibraryCRUD.readerUpdates rd).foldl (fun r f => f r) r = applyReaderUpdate rd r := by
  rcases rd with ⟨n, c⟩
  cases n <;> cases c <;> rfl

/-- State effect of LibraryCRUD.update_book expressed per field: rows
with the requested id get the per-field update, every other row and the
other tables are untouched; the no-clause early return coincides with
this description. -/
theorem update_book_eq (id : Nat) (bu : BookUpdate) (db : LibraryDB) :
    (LibraryCRUD.update_book id bu db).2 =
      { db with books :=
          db.books.map (fun r =>
            if r.book_id = id then applyBookUpdate bu r else r) } := by
  rcases bu with ⟨t, a, g, s⟩
  cases t <;> cases a <;> cases g <;> cases s <;>
    simp [LibraryCRUD.update_book, LibraryCRUD.bookUpdates, applyBookUpdate,
          beq_iff_eq]

/-- State effect of LibraryCRUD.update_staff expressed per field. -/
theorem update_staff_eq (id : Nat) (su : StaffUpdate) (db : LibraryDB) :
    (LibraryCRUD.update_staff id su db).2 =
      { db with staff :=
          db.staff.map (fun r =>
            if r.staff_id = id then applyStaffUpdate su r else r) } := by
  rcases su with ⟨n, ro, c⟩
  cases n <;> cases ro <;> cases c <;>
    simp [LibraryCRUD.update_staff, LibraryCRUD.staffUpdates, applyStaffUpdate,
          beq_iff_eq]

/-- State effect of LibraryCRUD.update_reader expressed per field. -/
theorem update_reader_eq (id : Nat) (ru : ReaderUpdate) (db : LibraryDB) :
    (LibraryCRUD.update_reader id ru db).2 =
      { db with readers :=
          db.readers.map (fun r =>
            if r.reader_id = id then applyReaderUpdate ru r else r) } := by
  rcases ru with ⟨n, c⟩
  cases n <;> cases c <;>
    simp [LibraryCRUD.update_reader, LibraryCRUD.readerUpdates,
          applyReaderUpdate, beq_iff_eq]

/-- C2: update mutates only specified fields.  For every stored state and
every update object, after LibraryCRUD.update_book the books table maps
each row with the requested book_id through the per-field update (None
fields keep their previous value, non-None fields take the new value,
via applyBookUpdate) while every row with a different book_id and the
other two tables are unchanged; likewise for update_staff and
update_reader. -/
theorem update_mutates_only_specified_fields :
    ∀ (db : LibraryDB) (id : Nat) (bu : BookUpdate) (su : StaffUpdate)
      (ru : ReaderUpdate),
      (LibraryCRUD.update_book id bu db).2 =
        { db with books :=
            db.books.map (fun r =>
              if r.book_id = id then applyBookUpdate bu r else r) }
      ∧ (LibraryCRUD.update_staff id su db).2 =
        { db with staff :=
            db.staff.map (fun r =>
              if r.staff_id = id then applyStaffUpdate su r else r) }
      ∧ (LibraryCRUD.update_reader id ru db).2 =
        { db with readers :=
            db.readers.map (fun r =>
              if r.reader_id = id then applyReaderUpdate ru r else r) } := by
  intro db id bu su ru
  exact ⟨update_book_eq id bu db, update_staff_eq id su db,
         update_reader_eq id ru db⟩

/-- C7: listing after clear returns an empty collection.  Whatever the
prior state, after DatabaseManager.clear_database the three get_all
queries return the empty list, and the list endpoints run on the state
left by the POST /clear-db handler answer with empty collections. -/
theorem clear_then_listing_empty :
    ∀ db : LibraryDB,
      LibraryCRUD.get_all_books (clear_database db).1 = []
      ∧ LibraryCRUD.get_all_staff (clear_database db).1 = []
      ∧ LibraryCRUD.get_all_readers (clear_database db).1 = []
      ∧ Api.get_books (Api.clear_db db).2.1 = Resp.ok []
      ∧ (Api.get_readers (Api.clear_db db).2.1).resp = Resp.ok []
      ∧ (Api.clear_db db).1 = Resp.ok "Database cleared successfully" := by
  intro db
  exact ⟨rfl, rfl, rfl, rfl, rfl, rfl⟩

/-- C10: the empty update is the identity.  With every field None the
three LibraryCRUD update functions return True and leave the state
untouched, and each PUT endpoint, on an id that is present, answers
with the unchanged record and the unchanged state.  For readers the
endpoint conjunct assumes the stored borrowed_books column decodes
(true of every reachable state, where it is always the literal string
written by create_reader), since the PUT handler re-parses it with a
bare json.loads and would answer 500 otherwise. -/
theorem empty_update_is_identity :
    ∀ (db : LibraryDB) (id : Nat),
      LibraryCRUD.update_book id
          { title := none, author := none, genre := none, stock := none } db =
        (true, db)
      ∧ LibraryCRUD.update_staff id
          { name := none, role := none, contact := none } db = (true, db)
      ∧ LibraryCRUD.update_reader id { name := none, contact := none } db =
        (true, db)
      ∧ (∀ b, LibraryCRUD.get_book_by_id id db = some b →
          Api.update_book id
              { title := none, author := none, genre := none, stock := none }
              db =
            (Resp.ok ("Book updated successfully", some b), db))
      ∧ (∀ st, LibraryCRUD.get_staff_by_id id db = some st →
          Api.update_staff id { name := none, role := none, contact := none }
              db =
            (Resp.ok ("Staff member updated successfully", some st), db))
      ∧ (∀ (r : ReaderRow) (bb : Json),
          LibraryCRUD.get_reader_by_id id db = some r →
          Json.parse r.borrowed_books = some bb →
          Api.update_reader id { name := none, contact := none } db =
            (Resp.ok ("Reader updated successfully",
                      some { reader_id := r.reader_id, name := r.name,
                             contact := r.contact, borrowed_books := bb }),
             db)) := by
  intro db id
  refine ⟨rfl, rfl, rfl, ?_, ?_, ?_⟩
  · intro b hb
    simp [Api.update_book, hb, LibraryCRUD.update_book, LibraryCRUD.bookUpdates]
  · intro st hst
    simp [Api.update_staff, hst, LibraryCRUD.update_staff,
          LibraryCRUD.staffUpdates]
  · intro r bb hr hbb
    simp [Api.update_reader, hr, hbb, LibraryCRUD.update_reader,
          LibraryCRUD.readerUpdates]

/-- Witness for C10 at concrete one-row states: the empty-body PUT on a
book and on a reader (with its stored [] column) both answer the
unchanged record. -/
theorem empty_update_is_identity_witness :
    Api.update_book 1
        { title := none, author := none, genre := none, stock := none }
        { db0 with
            books := [{ book_id := 1, title := "Dune", author := "Frank Herbert",
                        genre := none, stock := some 2 }],
            books_seq := 1 } =
      (Resp.ok ("Book updated successfully",
                some { book_id := 1, title := "Dune", author := "Frank Herbert",
                       genre := none, stock := some 2 }),
       { db0 with
           books := [{ book_id := 1, title := "Dune", author := "Frank Herbert",
                       genre := none, stock := some 2 }],
           books_seq := 1 })
    ∧ Api.update_reader 1 { name := none, contact := none }
        { db0 with
            readers := [{ reader_id := 1, name := "Bo", contact := none,
                          borrowed_books := "[]" }],
            readers_seq := 1 } =
      (Resp.ok ("Reader updated successfully",
                some { reader_id := 1, name := "Bo", contact := none,
                       borrowed_books := Json.arr [] }),
       { db0 with
           readers := [{ reader_id := 1, name := "Bo", contact := none,
                         borrowed_books := "[]" }],
           readers_seq := 1 }) :=
  ⟨((empty_update_is_identity
      { db0 with
          books := [{ book_id := 1, title := "Dune", author := "Frank Herbert",
                      genre := none, stock := some 2 }],
          books_seq := 1 } 1).2.2.2.1)
    { book_id := 1, title := "Dune", author := "Frank Herbert",
      genre := none, stock := some 2 } (by decide),
   ((empty_update_is_identity
      { db0 with
          readers := [{ reader_id := 1, name := "Bo", contact := none,
                        borrowed_books := "[]" }],
          readers_seq := 1 } 1).2.2.2.2.2)
    { reader_id := 1, name := "Bo", contact := none, borrowed_books := "[]" }
    (Json.arr []) (by rfl) (by rfl)⟩

/-- C1: create-then-read round-trip.  Under the AUTOINCREMENT invariant
(true of every reachable state), creating a book via
LibraryCRUD.create_book and fetching it by the returned id with
get_book_by_id yields a record whose title, author, genre and stock are
exactly the payload fields; the same holds for staff (name, role,
contact) and readers (name, contact). -/
theorem create_then_get_returns_same_fields :
    ∀ (db : LibraryDB) (b : BookCreate) (s : StaffCreate) (rd : ReaderCreate),
      (booksWF db →
        LibraryCRUD.get_book_by_id (LibraryCRUD.create_book b db).1
            (LibraryCRUD.create_book b db).2 =
          some { book_id := db.books_seq + 1, title := b.title,
                 author := b.author, genre := b.genre, stock := b.stock })
      ∧ (staffWF db →
        LibraryCRUD.get_staff_by_id (LibraryCRUD.create_staff s db).1
            (LibraryCRUD.create_staff s db).2 =
          some { staff_id := db.staff_seq + 1, name := s.name, role := s.role,
                 contact := s.contact })
      ∧ (readersWF db →
        LibraryCRUD.get_reader_by_id (LibraryCRUD.create_reader rd db).1
            (LibraryCRUD.create_reader rd db).2 =
          some { reader_id := db.readers_seq + 1, name := rd.name,
                 contact := rd.contact, borrowed_books := "[]" }) := by
  intro db b s rd
  refine ⟨?_, ?_, ?_⟩
  · intro hwf
    simp only [LibraryCRUD.create_book, LibraryCRUD.get_book_by_id]
    rw [lib_find?_append _ _ _ (fun x hx => ?_)]
    · simp [List.find?]
    · rw [beq_eq_false_iff_ne]
      have := hwf x hx
      omega
  · intro hwf
    simp only [LibraryCRUD.create_staff, LibraryCRUD.get_staff_by_id]
    rw [lib_find?_append _ _ _ (fun x hx => ?_)]
    · simp [List.find?]
    · rw [beq_eq_false_iff_ne]
      have := hwf x hx
      omega
  · intro hwf
    simp only [LibraryCRUD.create_reader, LibraryCRUD.get_reader_by_id]
    rw [lib_find?_append _ _ _ (fun x hx => ?_)]
    · simp [List.find?]
    · rw [beq_eq_false_iff_ne]
      have := hwf x hx
      omega

/-- Witness for C1 on the freshly initialised database. -/
theorem create_then_get_returns_same_fields_witness :
    booksWF db0
    ∧ LibraryCRUD.get_book_by_id
        (LibraryCRUD.create_book
          { title := "Dune", author := "Frank Herbert", genre := some "Sci-Fi",
            stock := some 3 } db0).1
        (LibraryCRUD.create_book
          { title := "Dune", author := "Frank Herbert", genre := some "Sci-Fi",
            stock := some 3 } db0).2 =
      some { book_id := 1, title := "Dune", author := "Frank Herbert",
             genre := some "Sci-Fi", stock := some 3 } :=
  ⟨by decide,
   (create_then_get_returns_same_fields db0
      { title := "Dune", author := "Frank Herbert", genre := some "Sci-Fi",
        stock := some 3 }
      { name := "Ana", role := "Librarian", contact := none }
      { name := "Bo", contact := none }).1 (by decide)⟩

/-- C3: delete removes the record.  For every stored book, the DELETE
endpoint succeeds, the resulting books table is the old one with every
row carrying that id filtered out while staff and readers are unchanged,
and a subsequent GET for the same id answers 404; likewise for staff and
readers. -/
theorem delete_removes_record_then_get_404 :
    ∀ (db : LibraryDB) (id : Nat),
      ((LibraryCRUD.get_book_by_id id db).isSome →
        (Api.delete_book id db).1 =
          Resp.ok ("Book with ID " ++ toString id ++ " deleted successfully")
        ∧ (Api.delete_book id db).2.books =
            db.books.filter (fun r => r.book_id != id)
        ∧ (Api.delete_book id db).2.staff = db.staff
        ∧ (Api.delete_book id db).2.readers = db.readers
        ∧ (Api.get_book id (Api.delete_book id db).2).errorCode = some 404)
      ∧ ((LibraryCRUD.get_staff_by_id id db).isSome →
        (Api.delete_staff id db).1 =
          Resp.ok ("Staff member with ID " ++ toString id ++
                   " deleted successfully")
        ∧ (Api.delete_staff id db).2.staff =
            db.staff.filter (fun r => r.staff_id != id)
        ∧ (Api.delete_staff id db).2.books = db.books
        ∧ (Api.delete_staff id db).2.readers = db.readers
        ∧ (Api.get_staff_member id (Api.delete_staff id db).2).errorCode =
            some 404)
      ∧ ((LibraryCRUD.get_reader_by_id id db).isSome →
        (Api.delete_reader id db).1 =
          Resp.ok ("Reader with ID " ++ toString id ++ " deleted successfully")
        ∧ (Api.delete_reader id db).2.readers =
            db.readers.filter (fun r => r.reader_id != id)
        ∧ (Api.delete_reader id db).2.books = db.books
        ∧ (Api.delete_reader id db).2.staff = db.staff
        ∧ ((Api.get_reader id (Api.delete_reader id db).2).resp).errorCode =
            some 404) := by
  intro db id
  refine ⟨?_, ?_, ?_⟩
  · intro h
    obtain ⟨bk, hbk⟩ := Option.isSome_iff_exists.mp h
    simp only [Api.delete_book, hbk, LibraryCRUD.delete_book]
    refine ⟨trivial, trivial, trivial, trivial, ?_⟩
    have hnone := lib_find?_filter_key (fun r : BookRow => r.book_id) id db.books
    simp [Api.get_book, LibraryCRUD.get_book_by_id, hnone, Resp.errorCode]
  · intro h
    obtain ⟨st, hst⟩ := Option.isSome_iff_exists.mp h
    simp only [Api.delete_staff, hst, LibraryCRUD.delete_staff]
    refine ⟨trivial, trivial, trivial, trivial, ?_⟩
    have hnone := lib_find?_filter_key (fun r : StaffRow => r.staff_id) id db.staff
    simp [Api.get_staff_member, LibraryCRUD.get_staff_by_id, hnone, Resp.errorCode]
  · intro h
    obtain ⟨rd, hrd⟩ := Option.isSome_iff_exists.mp h
    simp only [Api.delete_reader, hrd, LibraryCRUD.delete_reader]
    refine ⟨trivial, trivial, trivial, trivial, ?_⟩
    have hnone := lib_find?_filter_key (fun r : ReaderRow => r.reader_id) id db.readers
    simp [Api.get_reader, LibraryCRUD.get_reader_by_id, hnone, Resp.errorCode]

/-- Witness for C3 on a one-book state. -/
theorem delete_removes_record_then_get_404_witness :
    (Api.delete_book 1
        { db0 with
            books := [{ book_id := 1, title := "Dune", author := "Frank Herbert",
                        genre := none, stock := some 2 }],
            books_seq := 1 }).1 =
      Resp.ok ("Book with ID " ++ toString 1 ++ " deleted successfully") :=
  ((delete_removes_record_then_get_404
      { db0 with
          books := [{ book_id := 1, title := "Dune", author := "Frank Herbert",
                      genre := none, stock := some 2 }],
          books_seq := 1 } 1).1 (by decide)).1

/-- C4: 404 exactly on missing ids, atomically.  For every id absent
from the relevant table, the get, update and delete endpoints for
books, staff and readers answer 404 and leave the whole state
unchanged; for every present id none of them answers 404. -/
theorem missing_id_gives_404_and_no_change :
    ∀ (db : LibraryDB) (id : Nat),
      ((LibraryCRUD.get_book_by_id id db = none →
        (Api.get_book id db).errorCode = some 404
        ∧ (∀ u : BookUpdate, (Api.update_book id u db).1.errorCode = some 404
            ∧ (Api.update_book id u db).2 = db)
        ∧ (Api.delete_book id db).1.errorCode = some 404
        ∧ (Api.delete_book id db).2 = db)
      ∧ ((LibraryCRUD.get_book_by_id id db).isSome →
        (Api.get_book id db).errorCode ≠ some 404
        ∧ (∀ u : BookUpdate, (Api.update_book id u db).1.errorCode ≠ some 404)
        ∧ (Api.delete_book id db).1.errorCode ≠ some 404))
      ∧ ((LibraryCRUD.get_staff_by_id id db = none →
        (Api.get_staff_member id db).errorCode = some 404
        ∧ (∀ u : StaffUpdate, (Api.update_staff id u db).1.errorCode = some 404
            ∧ (Api.update_staff id u db).2 = db)
        ∧ (Api.delete_staff id db).1.errorCode = some 404
        ∧ (Api.delete_staff id db).2 = db)
      ∧ ((LibraryCRUD.get_staff_by_id id db).isSome →
        (Api.get_staff_member id db).errorCode ≠ some 404
        ∧ (∀ u : StaffUpdate, (Api.update_staff id u db).1.errorCode ≠ some 404)
        ∧ (Api.delete_staff id db).1.errorCode ≠ some 404))
      ∧ ((LibraryCRUD.get_reader_by_id id db = none →
        ((Api.get_reader id db).resp).errorCode = some 404
        ∧ (∀ u : ReaderUpdate, (Api.update_reader id u db).1.errorCode = some 404
            ∧ (Api.update_reader id u db).2 = db)
        ∧ (Api.delete_reader id db).1.errorCode = some 404
        ∧ (Api.delete_reader id db).2 = db)
      ∧ ((LibraryCRUD.get_reader_by_id id db).isSome →
        ((Api.get_reader id db).resp).errorCode ≠ some 404
        ∧ (∀ u : ReaderUpdate, (Api.update_reader id u db).1.errorCode ≠ some 404)
        ∧ (Api.delete_reader id db).1.errorCode ≠ some 404)) := by
  intro db id
  refine ⟨⟨?_, ?_⟩, ⟨?_, ?_⟩, ⟨?_, ?_⟩⟩
  · intro h
    simp [Api.get_book, Api.update_book, Api.delete_book, h, Resp.errorCode]
  · intro h
    obtain ⟨bk, hbk⟩ := Option.isSome_iff_exists.mp h
    simp [Api.get_book, Api.update_book, Api.delete_book, hbk, Resp.errorCode]
  · intro h
    simp [Api.get_staff_member, Api.update_staff, Api.delete_staff, h,
          Resp.errorCode]
  · intro h
    obtain ⟨st, hst⟩ := Option.isSome_iff_exists.mp h
    simp [Api.get_staff_member, Api.update_staff, Api.delete_staff, hst,
          Resp.errorCode]
  · intro h
    simp [Api.get_reader, Api.update_reader, Api.delete_reader, h,
          Resp.errorCode]
  · intro h
    obtain ⟨rd, hrd⟩ := Option.isSome_iff_exists.mp h
    refine ⟨?_, ?_, ?_⟩
    · simp [Api.get_reader, hrd, Resp.errorCode]
    · intro u
      simp only [Api.update_reader, hrd]
      rcases h2 : LibraryCRUD.get_reader_by_id id
          (LibraryCRUD.update_reader id u db).2 with _ | r2
      · simp [h2, Resp.errorCode]
      · rcases h3 : Json.parse r2.borrowed_books with _ | v
        · simp [h2, h3, Resp.errorCode]
        · simp [h2, h3, Resp.errorCode]
    · simp [Api.delete_reader, hrd, Resp.errorCode]

/-- Witness for C4: a missing id answers 404 without changing the state,
and a present id does not answer 404. -/
theorem missing_id_gives_404_and_no_change_witness :
    ((Api.get_book 999 db0).errorCode = some 404
     ∧ (Api.update_book 999
          { title := some "X", author := none, genre := none, stock := none }
          db0).2 = db0)
    ∧ (Api.get_book 1
        { db0 with
            books := [{ book_id := 1, title := "Dune", author := "Frank Herbert",
                        genre := none, stock := some 2 }],
            books_seq := 1 }).errorCode ≠ some 404 :=
  ⟨⟨(((missing_id_gives_404_and_no_change db0 999).1.1 (by decide)).1),
    (((missing_id_gives_404_and_no_change db0 999).1.1 (by decide)).2.1
      { title := some "X", author := none, genre := none, stock := none }).2⟩,
   ((missing_id_gives_404_and_no_change
       { db0 with
           books := [{ book_id := 1, title := "Dune", author := "Frank Herbert",
                       genre := none, stock := some 2 }],
           books_seq := 1 } 1).1.2 (by decide)).1⟩

/-- C6: flat-file identifiers are line-number-derived.  Every record
emitted by convert_books_to_json (and the reader and staff converters)
carries as id the 1-based number of the line it came from, counting all
lines including blank or malformed skipped ones: the id lies between 1
and the number of lines, and re-running the loop body on the line at
that position reproduces the record, so ids are not contiguous when
lines in between are skipped and are reassigned from position whenever
earlier lines are removed. -/
theorem converter_ids_are_line_numbers :
    ∀ (lines : List String),
      (∀ b ∈ convert_books_to_json lines,
        1 ≤ b.id ∧ b.id ≤ lines.length
        ∧ bookOfLine b.id (lines.getD (b.id - 1) "") = some b)
      ∧ (∀ r ∈ convert_readers_to_json lines,
        1 ≤ r.id ∧ r.id ≤ lines.length
        ∧ readerOfLine r.id (lines.getD (r.id - 1) "") = some r)
      ∧ (∀ s ∈ convert_staff_to_json lines,
        1 ≤ s.id ∧ s.id ≤ lines.length
        ∧ staffOfLine s.id (lines.getD (s.id - 1) "") = some s) := by
  intro lines
  refine ⟨?_, ?_, ?_⟩
  · intro b hb
    obtain ⟨h1, h2, h3⟩ :=
      lib_convertGo_mem bookOfLine JsonBook.id bookOfLine_id lines 1 b hb
    exact ⟨h1, by omega, h3⟩
  · intro r hr
    obtain ⟨h1, h2, h3⟩ :=
      lib_convertGo_mem readerOfLine JsonReader.id readerOfLine_id lines 1 r hr
    exact ⟨h1, by omega, h3⟩
  · intro s hs
    obtain ⟨h1, h2, h3⟩ :=
      lib_convertGo_mem staffOfLine JsonStaff.id staffOfLine_id lines 1 s hs
    exact ⟨h1, by omega, h3⟩

/-- Witness for C6: in a four-line file whose second and third lines are
skipped, the record from the fourth line keeps id 4. -/
theorem converter_ids_are_line_numbers_witness :
    sampleBook ∈ convert_books_to_json sampleLines
    ∧ (1 ≤ sampleBook.id ∧ sampleBook.id ≤ sampleLines.length
       ∧ bookOfLine sampleBook.id (sampleLines.getD (sampleBook.id - 1) "") =
         some sampleBook) :=
  ⟨by
    rw [show convert_books_to_json sampleLines =
          [{ id := 1, title := "Dune", author := "Frank Herbert", isbn := "",
             published_year := none, genre := "", available := true },
           sampleBook] from rfl]
    simp,
   (converter_ids_are_line_numbers sampleLines).1 sampleBook (by
    rw [show convert_books_to_json sampleLines =
          [{ id := 1, title := "Dune", author := "Frank Herbert", isbn := "",
             published_year := none, genre := "", available := true },
           sampleBook] from rfl]
    simp)⟩

/-- Fetching a reader right after creating it finds the created row,
under the AUTOINCREMENT invariant. -/
theorem lib_create_reader_then_get (db : LibraryDB) (rd : ReaderCreate)
    (hwf : readersWF db) :
    LibraryCRUD.get_reader_by_id (LibraryCRUD.create_reader rd db).1
        (LibraryCRUD.create_reader rd db).2 =
      some { reader_id := db.readers_seq + 1, name := rd.name,
             contact := rd.contact, borrowed_books := "[]" } := by
  simp only [LibraryCRUD.create_reader, LibraryCRUD.get_reader_by_id]
  rw [lib_find?_append _ _ _ (fun x hx => ?_)]
  · simp [List.find?]
  · rw [beq_eq_false_iff_ne]
    have := hwf x hx
    omega

/-- C9: a newly created reader always has an empty borrowed_books list.
LibraryCRUD.create_reader stores the literal string [] whatever the
payload, and the POST /readers/advanced handler discards any
details.borrowed_books supplied in the request: the created reader is
returned with borrowed_books equal to the empty list regardless of the
payload. -/
theorem created_reader_has_empty_borrowed_books :
    ∀ (db : LibraryDB) (rd : ReaderCreate) (p : ReaderAdvancedCreate),
      ((LibraryCRUD.create_reader rd db).2.readers =
        db.readers ++
          [{ reader_id := db.readers_seq + 1, name := rd.name,
             contact := rd.contact, borrowed_books := "[]" }])
      ∧ (readersWF db →
          (Api.create_reader_advanced p db).1.resp =
            Resp.ok { reader_id := db.readers_seq + 1, name := p.name,
                      details := { contact := p.details.contact,
                                   borrowed_books := [] } }) := by
  intro db rd p
  refine ⟨rfl, ?_⟩
  intro hwf
  have hget := lib_create_reader_then_get db
    { name := p.name, contact := p.details.contact } hwf
  simp only [Api.create_reader_advanced, hget, json_parse_empty_list]
  simp [Json.toIntList, List.mapM.loop]

/-- Witness for C9: the advanced create payload asks for borrowed books
7 and 9, yet the created reader is returned with the empty list. -/
theorem created_reader_has_empty_borrowed_books_witness :
    (Api.create_reader_advanced
        { name := "Bo",
          details := { contact := some "bo@example.com",
                       borrowed_books := [7, 9] } } db0).1.resp =
      Resp.ok { reader_id := 1, name := "Bo",
                details := { contact := some "bo@example.com",
                             borrowed_books := [] } } :=
  (created_reader_has_empty_borrowed_books db0 { name := "Z", contact := none }
      { name := "Bo",
        details := { contact := some "bo@example.com",
                     borrowed_books := [7, 9] } }).2 (by decide)

/-- Counterexample to C5: the basic POST /books endpoint accepts a
payload whose required title is the empty string, answers success
rather than 400, and stores the record. -/
theorem basic_create_ignores_empty_required_fields :
    (Api.create_book
        { title := "", author := "Some Author", genre := none, stock := some 1 }
        db0).1 =
      Resp.ok ("Book created successfully",
               some { book_id := 1, title := "", author := "Some Author",
                      genre := none, stock := some 1 })
    ∧ (Api.create_book
        { title := "", author := "Some Author", genre := none, stock := some 1 }
        db0).2.books =
      [{ book_id := 1, title := "", author := "Some Author", genre := none,
         stock := some 1 }] :=
  ⟨rfl, rfl⟩

/-- C5 as amended: POST /validate/book answers 400 exactly when
BookAdvancedCreate validation fails, which for a well-typed payload is
exactly when the title or the author is empty or whitespace-only, and
answers success with the validated (stripped) data otherwise; it never
touches the store.  The basic POST /books endpoint runs no such
validation: it never answers 400 and stores the payload fields
verbatim, empty or not. -/
theorem validate_endpoint_400_iff_validation_fails :
    ∀ (p : BookPayload),
      ((Api.validate_book_json_endpoint p).errorCode = some 400 ↔
        (pystrip p.title = "" ∨ pystrip p.author = ""))
      ∧ (∀ b, validate_book_json p = Except.ok b →
          Api.validate_book_json_endpoint p =
            Resp.ok ("JSON payload is valid", b))
      ∧ (¬(pystrip p.title = "" ∨ pystrip p.author = "") →
          validate_book_json p =
            Except.ok { title := pystrip p.title, author := pystrip p.author,
                        details := p.details })
      ∧ (∀ (bc : BookCreate) (db : LibraryDB),
          (Api.create_book bc db).1.errorCode = none
          ∧ (Api.create_book bc db).2.books =
              db.books ++
                [{ book_id := db.books_seq + 1, title := bc.title,
                   author := bc.author, genre := bc.genre,
                   stock := bc.stock }]) := by
  intro p
  refine ⟨?_, ?_, ?_, ?_⟩
  · by_cases h1 : pystrip p.title = ""
    · simp [Api.validate_book_json_endpoint, validate_book_json,
            mkBookAdvancedCreate, title_not_empty, h1, Resp.errorCode]
    · by_cases h2 : pystrip p.author = ""
      · simp [Api.validate_book_json_endpoint, validate_book_json,
              mkBookAdvancedCreate, title_not_empty, author_not_empty, h1, h2,
              Resp.errorCode]
      · simp [Api.validate_book_json_endpoint, validate_book_json,
              mkBookAdvancedCreate, title_not_empty, author_not_empty, h1, h2,
              Resp.errorCode]
  · intro b hb
    simp [Api.validate_book_json_endpoint, hb]
  · intro h
    push_neg at h
    simp [validate_book_json, mkBookAdvancedCreate, title_not_empty,
          author_not_empty, h.1, h.2]
  · intro bc db
    exact ⟨rfl, rfl⟩

/-- Witness for the amended C5: a whitespace-only title is rejected with
400, and a well-formed payload validates and is answered with its
stripped data. -/
theorem validate_endpoint_400_iff_validation_fails_witness :
    (Api.validate_book_json_endpoint
        { title := "   ", author := "Good Author",
          details := { genre := none, stock := some 1 } }).errorCode = some 400
    ∧ Api.validate_book_json_endpoint
        { title := "Dune", author := "Frank Herbert",
          details := { genre := some "Sci-Fi", stock := some 3 } } =
      Resp.ok ("JSON payload is valid",
               { title := "Dune", author := "Frank Herbert",
                 details := { genre := some "Sci-Fi", stock := some 3 } }) :=
  ⟨((validate_endpoint_400_iff_validation_fails
      { title := "   ", author := "Good Author",
        details := { genre := none, stock := some 1 } }).1).mpr
     (Or.inl (by decide)),
   ((validate_endpoint_400_iff_validation_fails
      { title := "Dune", author := "Frank Herbert",
        details := { genre := some "Sci-Fi", stock := some 3 } }).2.1
     { title := "Dune", author := "Frank Herbert",
       details := { genre := some "Sci-Fi", stock := some 3 } } (by rfl))⟩

/-- Counterexample to C8: with a stored reader whose borrowed_books
column is not valid JSON, all three reader GET handlers succeed and
return the empty list, but no log message is emitted anywhere: the
decoding error is swallowed silently, not logged. -/
theorem corrupt_borrowed_books_swallowed_silently :
    (Api.get_reader 1 dbCorrupt).resp =
      Resp.ok { reader_id := 1, name := "Reader One", contact := none,
                borrowed_books := Json.arr [] }
    ∧ (Api.get_reader 1 dbCorrupt).log = []
    ∧ (Api.get_readers dbCorrupt).resp =
      Resp.ok [{ reader_id := 1, name := "Reader One", contact := none,
                 borrowed_books := Json.arr [] }]
    ∧ (Api.get_readers dbCorrupt).log = []
    ∧ (Api.get_reader_advanced 1 dbCorrupt).resp =
      Resp.ok { reader_id := 1, name := "Reader One",
                details := { contact := none, borrowed_books := [] } }
    ∧ (Api.get_reader_advanced 1 dbCorrupt).log = [] :=
  ⟨rfl, rfl, rfl, rfl, rfl, rfl⟩

/-- C8 as amended: for every stored reader whose borrowed_books column
fails JSON decoding, the list, by-id and advanced reader GET handlers
still succeed and return borrowed_books as the empty list rather than
raising; the decoding error is swallowed silently, with no log
entry. -/
theorem corrupt_borrowed_books_yields_empty_list :
    ∀ (db : LibraryDB) (id : Nat) (r : ReaderRow),
      LibraryCRUD.get_reader_by_id id db = some r →
      Json.parse r.borrowed_books = none →
      ((Api.get_reader id db).resp =
        Resp.ok { reader_id := r.reader_id, name := r.name,
                  contact := r.contact, borrowed_books := Json.arr [] }
      ∧ (Api.get_reader id db).log = []
      ∧ (Api.get_readers db).resp =
          Resp.ok ((LibraryCRUD.get_all_readers db).map decodeReaderRow)
      ∧ decodeReaderRow r =
          { reader_id := r.reader_id, name := r.name, contact := r.contact,
            borrowed_books := Json.arr [] }
      ∧ (Api.get_readers db).log = []
      ∧ (Api.get_reader_advanced id db).resp =
          Resp.ok { reader_id := r.reader_id, name := r.name,
                    details := { contact := r.contact,
                                 borrowed_books := [] } }
      ∧ (Api.get_reader_advanced id db).log = []) := by
  intro db id r hfind hparse
  simp [Api.get_reader, Api.get_readers, Api.get_reader_advanced, hfind,
        hparse, decodeReaderRow, LibraryCRUD.get_all_readers, Json.toIntList,
        List.mapM.loop]

/-- Witness for the amended C8 at the concrete corrupt state. -/
theorem corrupt_borrowed_books_yields_empty_list_witness :
    (Api.get_reader 1 dbCorrupt).resp =
      Resp.ok { reader_id := 1, name := "Reader One", contact := none,
                borrowed_books := Json.arr [] }
    ∧ (Api.get_reader_advanced 1 dbCorrupt).log = [] := by
  have h := corrupt_borrowed_books_yields_empty_list dbCorrupt 1
    { reader_id := 1, name := "Reader One", contact := none,
      borrowed_books := "not json" } (by rfl) (by rfl)
  exact ⟨h.1, h.2.2.2.2.2.2⟩
